import Mathlib

/-!
Shallow embedding of the `Iridescence` React component (GPU-shaded animated
background): frame-rate-limited animation scheduler, throttled + smoothed
pointer input, debounced resize handling, and effect teardown.  Timestamps
and coordinates are modelled as exact rationals; the DOM / WebGL host is
modelled as explicit state records.
-/

namespace Iridescence

/-! ### Constants from the source -/

/-- `const TARGET_FPS = 30`. -/
def TARGET_FPS : ℚ := 30

/-- `const FRAME_DURATION = 1000 / TARGET_FPS` (the frame interval in ms). -/
def FRAME_DURATION : ℚ := 1000 / TARGET_FPS

/-- `const MOUSE_THROTTLE = 50` (mouse throttle interval in ms). -/
def MOUSE_THROTTLE : ℚ := 50

/-- `const lerpFactor = 0.1` (the smoothing factor used in `update`). -/
def lerpFactor : ℚ := 1 / 10

/-- `const scale = 0.5` in `resize` (render at 50% resolution). -/
def RENDER_SCALE : ℚ := 1 / 2

/-! ### JavaScript arithmetic helpers -/

/-- Truncation toward zero, as JavaScript truncates when forming remainders. -/
def ratTrunc (q : ℚ) : ℤ := if 0 ≤ q then ⌊q⌋ else ⌈q⌉

/-- JavaScript's `%` (truncated remainder) on exact rationals. -/
def jsMod (a b : ℚ) : ℚ := a - b * (ratTrunc (a / b) : ℚ)

/-! ### Animation scheduler (`update`, lines 139–160) -/

structure Vec2 where
  x : ℚ
  y : ℚ
deriving DecidableEq, Repr

/-- `const mousePos = useRef({ x: 0.5, y: 0.5 })`. -/
def initMousePos : Vec2 := ⟨1/2, 1/2⟩

/-- `const targetMousePos = useRef({ x: 0.5, y: 0.5 })`. -/
def initTargetMousePos : Vec2 := ⟨1/2, 1/2⟩

/-- One axis of the smoothing step:
`mousePos.current.x += (targetMousePos.current.x - mousePos.current.x) * lerpFactor`. -/
def lerpStep (current target : ℚ) : ℚ := current + (target - current) * lerpFactor

/-- Iterated smoothing toward a fixed target (one application per admitted
frame). -/
def lerpIter (target : ℚ) : ℕ → ℚ → ℚ
  | 0, c => c
  | n + 1, c => lerpIter target n (lerpStep c target)

/-- The mutable state touched by the animation callback `update`: the frame
clock `lastFrameTime`, the smoothed pointer `mousePos` and its
`targetMousePos`, the `uMouse` and `uTime` uniform values, a counter of
issued draw calls (`renderer.render`), and a counter of
`requestAnimationFrame` registrations (the rescheduling). -/
structure UpdState where
  lastFrameTime : ℚ
  mousePos : Vec2
  targetMousePos : Vec2
  uMouse : Vec2
  uTime : ℚ
  draws : ℕ
  rafCount : ℕ
deriving DecidableEq, Repr

/-- State after mount, just before the first animation callback:
`lastFrameTime = 0`, pointer at the centre, `uMouse` initialised from
`mousePos` (line 132), `uTime = 0` (line 127), no draw yet, one pending
animation-frame request (line 160). -/
def initUpdState : UpdState :=
  { lastFrameTime := 0
    mousePos := initMousePos
    targetMousePos := initTargetMousePos
    uMouse := initMousePos
    uTime := 0
    draws := 0
    rafCount := 1 }

/-- The animation callback `update(t)` (lines 142–159): reschedule itself,
then return early when `elapsed = t - lastFrameTime < FRAME_DURATION`;
otherwise carry the phase into `lastFrameTime`, apply the pointer smoothing
step, write the `uMouse` and `uTime` uniforms and issue one draw call. -/
def update (t : ℚ) (s : UpdState) : UpdState :=
  if t - s.lastFrameTime < FRAME_DURATION then
    { s with rafCount := s.rafCount + 1 }
  else
    { s with
      rafCount := s.rafCount + 1
      lastFrameTime := t - jsMod (t - s.lastFrameTime) FRAME_DURATION
      mousePos := ⟨lerpStep s.mousePos.x s.targetMousePos.x,
                   lerpStep s.mousePos.y s.targetMousePos.y⟩
      uMouse := ⟨lerpStep s.mousePos.x s.targetMousePos.x,
                 lerpStep s.mousePos.y s.targetMousePos.y⟩
      uTime := t * (1 / 1000)
      draws := s.draws + 1 }

/-- Whether the callback at timestamp `t` passes the frame-rate gate in
state `s` (the negation of the early return at line 147). -/
def admits (s : UpdState) (t : ℚ) : Bool :=
  !(decide (t - s.lastFrameTime < FRAME_DURATION))

/-- Run a sequence of animation callbacks. -/
def runUpdates (ts : List ℚ) (s : UpdState) : UpdState :=
  ts.foldl (fun s t => update t s) s

/-- The timestamps of the admitted frames of a callback sequence. -/
def admittedTimes (ts : List ℚ) (s : UpdState) : List ℚ :=
  match ts with
  | [] => []
  | t :: rest =>
    if admits s t then t :: admittedTimes rest (update t s)
    else admittedTimes rest (update t s)

/-! ### Throttled mouse handler (`handleMouseMove`, lines 164–174) -/

/-- `ctn.getBoundingClientRect()`. -/
structure Rect where
  left : ℚ
  top : ℚ
  width : ℚ
  height : ℚ
deriving DecidableEq, Repr

/-- The fields of a `MouseEvent` the handler reads. -/
structure PointerEvent where
  clientX : ℚ
  clientY : ℚ
deriving DecidableEq, Repr

/-- The mutable state touched by `handleMouseMove`: the throttle clock
`lastMouseUpdate` (initially 0, line 164) and the smoothing target. -/
structure MouseState where
  lastMouseUpdate : ℚ
  targetMousePos : Vec2
deriving DecidableEq, Repr

/-- Conversion of an accepted event to container-relative normalised
coordinates (lines 170–172): `x = (clientX - rect.left) / rect.width`,
`y = 1 - (clientY - rect.top) / rect.height`. -/
def normCoords (rect : Rect) (e : PointerEvent) : Vec2 :=
  ⟨(e.clientX - rect.left) / rect.width,
   1 - (e.clientY - rect.top) / rect.height⟩

/-- `handleMouseMove(e)` at time `now = performance.now()`: drop the event
when `now - lastMouseUpdate < MOUSE_THROTTLE`, otherwise accept it, record
`now` and store the normalised coordinates as the new target. -/
def handleMouseMove (now : ℚ) (rect : Rect) (e : PointerEvent) (s : MouseState) : MouseState :=
  if now - s.lastMouseUpdate < MOUSE_THROTTLE then s
  else
    { lastMouseUpdate := now
      targetMousePos := normCoords rect e }

/-! ### Host resources, setup and teardown (lines 79–191) -/

/-- The host resources acquired by the effect. -/
inductive Resource where
  | glContext
  | resizeListener
  | animFrame
  | canvasNode
  | mouseListener
  | resizeTimer
deriving DecidableEq, Repr

/-- A mock host environment counting what is currently registered. -/
structure HostState where
  rafPending : Bool
  resizeTimerPending : Bool
  resizeListenerOn : Bool
  mouseListenerOn : Bool
  canvasAttached : Bool
  contextLost : Bool
deriving DecidableEq, Repr, Fintype

/-- Host state right after the effect body ran: GL context alive (line 84),
resize listener registered (119), an animation frame pending (160), the
canvas attached (161), and the mousemove listener registered iff
`mouseReact` (176–178).  No debounce timer is pending until a resize event
fires. -/
def setupState (mouseReact : Bool) : HostState :=
  { rafPending := true
    resizeTimerPending := false
    resizeListenerOn := true
    mouseListenerOn := mouseReact
    canvasAttached := true
    contextLost := false }

/-- Acquisition order during mount: GL context (line 84), window resize
listener (119), animation-frame request (160), canvas attached to the
container (161), optional mousemove listener (177). -/
def setupTrace (mouseReact : Bool) : List Resource :=
  [Resource.glContext, Resource.resizeListener, Resource.animFrame, Resource.canvasNode] ++
    (if mouseReact then [Resource.mouseListener] else [])

/-- `ctn.removeChild(gl.canvas)`: raises when the canvas is not a child. -/
def removeChild (s : HostState) : Option HostState :=
  if s.canvasAttached then some { s with canvasAttached := false } else none

/-- The effect cleanup (lines 180–191): cancel the animation frame, clear
the resize debounce timer, remove the resize listener, remove the mousemove
listener when `mouseReact`, detach the canvas when still attached (guarded
by `gl.canvas.parentNode`), and lose the GL context.  Returns the resulting
host state together with the ordered list of release actions performed, or
`none` if a host operation raised. -/
def cleanup (mouseReact : Bool) (s : HostState) : Option (HostState × List Resource) :=
  let s1 : HostState := { s with rafPending := false }
  let s2 : HostState := { s1 with resizeTimerPending := false }
  let s3 : HostState := { s2 with resizeListenerOn := false }
  let s4 : HostState := if mouseReact then { s3 with mouseListenerOn := false } else s3
  let step5 : Option (HostState × List Resource) :=
    if s4.canvasAttached then (removeChild s4).map (fun s5 => (s5, [Resource.canvasNode]))
    else some (s4, [])
  step5.map (fun p =>
    ({ p.1 with contextLost := true },
      [Resource.animFrame, Resource.resizeTimer, Resource.resizeListener] ++
        (if mouseReact then [Resource.mouseListener] else []) ++
        p.2 ++ [Resource.glContext]))

/-! ### Resize and program construction (lines 92–136) -/

/-- `ctn` as seen through `offsetWidth` / `offsetHeight`. -/
structure Box where
  offsetWidth : ℚ
  offsetHeight : ℚ
deriving DecidableEq, Repr

/-- The drawable canvas: backing buffer dimensions plus whether its CSS
size has been set to 100% of the container. -/
structure Canvas where
  width : ℚ
  height : ℚ
  cssFullSize : Bool
deriving DecidableEq, Repr

/-- The shader program's uniform record (lines 126–135). -/
structure Uniforms where
  uTime : ℚ
  uColor : ℚ × ℚ × ℚ
  uResolution : ℚ × ℚ × ℚ
  uMouse : Vec2
  uAmplitude : ℚ
  uSpeed : ℚ
deriving DecidableEq, Repr

/-- Modelled from the spec: `renderer.setSize(w, h)` of the external `ogl`
renderer is not part of this repository; per the spec's DrawableSurface
model (§3) it sizes the backing buffer to the requested scaled dimensions
`scaledWidth = containerWidth * RENDER_SCALE`,
`scaledHeight = containerHeight * RENDER_SCALE`. -/
def setSize (w h : ℚ) (c : Canvas) : Canvas :=
  { c with width := w, height := h }

/-- The `resize` / `program` state: the canvas and the optional shader
program (the module-level `let program` of line 92). -/
structure RState where
  canvas : Canvas
  program : Option Uniforms
deriving DecidableEq, Repr

/-- `resize()` (lines 94–110): size the drawable to 50% of the container,
present it at 100% via CSS, and, only if the program already exists, write
`uResolution = (canvas.width, canvas.height, canvas.width / canvas.height)`. -/
def resize (ctn : Box) (s : RState) : RState :=
  let c1 := setSize (ctn.offsetWidth * RENDER_SCALE) (ctn.offsetHeight * RENDER_SCALE) s.canvas
  let c2 : Canvas := { c1 with cssFullSize := true }
  match s.program with
  | none => { canvas := c2, program := none }
  | some u =>
    { canvas := c2
      program := some { u with uResolution := (c2.width, c2.height, c2.width / c2.height) } }

/-- Program construction (lines 123–136): the uniforms are initialised from
the current canvas dimensions and the centred pointer. -/
def mkUniforms (c : Canvas) (color : ℚ × ℚ × ℚ) (amplitude speed : ℚ) : Uniforms :=
  { uTime := 0
    uColor := color
    uResolution := (c.width, c.height, c.width / c.height)
    uMouse := initMousePos
    uAmplitude := amplitude
    uSpeed := speed }

/-- The mount steps around `resize` (lines 92–136): the initial synchronous
`resize()` runs while `program` is still unset, then the program is
constructed from the canvas dimensions it established. -/
def mount (ctn : Box) (c0 : Canvas) (color : ℚ × ℚ × ℚ) (amplitude speed : ℚ) : RState :=
  let s1 := resize ctn { canvas := c0, program := none }
  { s1 with program := some (mkUniforms s1.canvas color amplitude speed) }

/-! ### Basic lemmas -/

lemma FRAME_DURATION_pos : (0 : ℚ) < FRAME_DURATION := by
  norm_num [FRAME_DURATION, TARGET_FPS]

lemma admits_eq_true {s : UpdState} {t : ℚ}
    (h : ¬(t - s.lastFrameTime < FRAME_DURATION)) : admits s t = true := by
  simp [admits, h]

lemma admits_eq_false {s : UpdState} {t : ℚ}
    (h : t - s.lastFrameTime < FRAME_DURATION) : admits s t = false := by
  simp [admits, h]

lemma update_skip {s : UpdState} {t : ℚ}
    (h : t - s.lastFrameTime < FRAME_DURATION) :
    update t s = { s with rafCount := s.rafCount + 1 } := by
  rw [update, if_pos h]

lemma update_admitted {s : UpdState} {t : ℚ}
    (h : ¬(t - s.lastFrameTime < FRAME_DURATION)) :
    update t s =
      { s with
        rafCount := s.rafCount + 1
        lastFrameTime := t - jsMod (t - s.lastFrameTime) FRAME_DURATION
        mousePos := ⟨lerpStep s.mousePos.x s.targetMousePos.x,
                     lerpStep s.mousePos.y s.targetMousePos.y⟩
        uMouse := ⟨lerpStep s.mousePos.x s.targetMousePos.x,
                   lerpStep s.mousePos.y s.targetMousePos.y⟩
        uTime := t * (1 / 1000)
        draws := s.draws + 1 } := by
  rw [update, if_neg h]

lemma ratTrunc_eq_floor {q : ℚ} (h : 0 ≤ q) : ratTrunc q = ⌊q⌋ := if_pos h

/-- Evaluation of `jsMod` once the quotient's floor is bracketed. -/
lemma jsMod_eval {a b : ℚ} {k : ℤ} (hb : 0 < b) (hk : 0 ≤ k)
    (h1 : b * k ≤ a) (h2 : a < b * (k + 1)) : jsMod a b = a - b * k := by
  have hq1 : (k : ℚ) ≤ a / b := (le_div_iff₀ hb).2 (by linarith [mul_comm b (k : ℚ)])
  have hq2 : a / b < (k : ℚ) + 1 := (div_lt_iff₀ hb).2 (by linarith [mul_comm b ((k : ℚ) + 1)])
  have h0 : 0 ≤ a / b := le_trans (by exact_mod_cast hk) hq1
  have hfl : ⌊a / b⌋ = k := by
    rw [Int.floor_eq_iff]
    exact ⟨hq1, by exact_mod_cast hq2⟩
  rw [jsMod, ratTrunc_eq_floor h0, hfl]

/-- After an admitted frame the new `lastFrameTime` is aligned to the frame
grid: if the old value was `FRAME_DURATION * m`, the new one is
`FRAME_DURATION * ⌊t / FRAME_DURATION⌋`, one or more whole frames later. -/
lemma admit_aligned (m : ℤ) (t : ℚ)
    (h : FRAME_DURATION ≤ t - FRAME_DURATION * m) :
    t - jsMod (t - FRAME_DURATION * m) FRAME_DURATION
      = FRAME_DURATION * ⌊t / FRAME_DURATION⌋ ∧ m < ⌊t / FRAME_DURATION⌋ := by
  have hF : (0 : ℚ) < FRAME_DURATION := FRAME_DURATION_pos
  have hdiv : (t - FRAME_DURATION * m) / FRAME_DURATION = t / FRAME_DURATION - m := by
    rw [sub_div, mul_comm, mul_div_assoc, div_self hF.ne', mul_one]
  have h1 : (1 : ℚ) ≤ (t - FRAME_DURATION * m) / FRAME_DURATION := (one_le_div hF).2 h
  have h0 : (0 : ℚ) ≤ (t - FRAME_DURATION * m) / FRAME_DURATION := le_trans one_pos.le h1
  have hfl : ⌊(t - FRAME_DURATION * m) / FRAME_DURATION⌋ = ⌊t / FRAME_DURATION⌋ - m := by
    rw [hdiv, Int.floor_sub_int]
  have hm : m < ⌊t / FRAME_DURATION⌋ := by
    have : (m : ℚ) + 1 ≤ t / FRAME_DURATION := by
      rw [hdiv] at h1; linarith
    have : m + 1 ≤ ⌊t / FRAME_DURATION⌋ := Int.le_floor.2 (by exact_mod_cast this)
    omega
  refine ⟨?_, hm⟩
  rw [jsMod, ratTrunc_eq_floor h0, hfl]
  push_cast
  ring

lemma lerpStep_self (c : ℚ) : lerpStep c c = c := by
  simp [lerpStep]

lemma lerpStep_sub (c T : ℚ) : lerpStep c T - T = (9 / 10) * (c - T) := by
  rw [lerpStep, lerpFactor]; ring

lemma lerpIter_sub (T : ℚ) : ∀ (n : ℕ) (c : ℚ),
    lerpIter T n c - T = (9 / 10) ^ n * (c - T)
  | 0, c => by simp [lerpIter]
  | n + 1, c => by
    rw [lerpIter, lerpIter_sub T n, lerpStep_sub]; ring

lemma lerpIter_abs (T : ℚ) (n : ℕ) (c : ℚ) :
    |lerpIter T n c - T| = (9 / 10) ^ n * |c - T| := by
  rw [lerpIter_sub, abs_mul, abs_pow, abs_of_pos (by norm_num : (0:ℚ) < 9 / 10)]

lemma admittedTimes_nil (s : UpdState) : admittedTimes [] s = [] := rfl

lemma admittedTimes_cons_skip {s : UpdState} {t : ℚ}
    (h : t - s.lastFrameTime < FRAME_DURATION) (rest : List ℚ) :
    admittedTimes (t :: rest) s = admittedTimes rest (update t s) := by
  simp [admittedTimes, admits_eq_false h]

lemma admittedTimes_cons_admitted {s : UpdState} {t : ℚ}
    (h : ¬(t - s.lastFrameTime < FRAME_DURATION)) (rest : List ℚ) :
    admittedTimes (t :: rest) s = t :: admittedTimes rest (update t s) := by
  simp [admittedTimes, admits_eq_true h]

/-- Invariant: from a state whose `lastFrameTime` sits on the frame grid,
every admitted timestamp lies in a strictly later grid window than the
state's, and the admitted timestamps occupy pairwise strictly increasing
grid windows. -/
lemma admittedTimes_windows :
    ∀ (ts : List ℚ) (s : UpdState) (m : ℤ),
      s.lastFrameTime = FRAME_DURATION * m →
      (∀ t ∈ admittedTimes ts s, m < ⌊t / FRAME_DURATION⌋) ∧
        (admittedTimes ts s).Pairwise
          (fun a b => ⌊a / FRAME_DURATION⌋ < ⌊b / FRAME_DURATION⌋) := by
  intro ts
  induction ts with
  | nil => intro s m _; simp [admittedTimes_nil]
  | cons t rest ih =>
    intro s m hs
    by_cases h : t - s.lastFrameTime < FRAME_DURATION
    · rw [admittedTimes_cons_skip h]
      refine ih _ m ?_
      rw [update_skip h]
      simpa using hs
    · have hge : FRAME_DURATION ≤ t - FRAME_DURATION * m := by
        rw [← hs]; exact not_lt.1 h
      obtain ⟨heq, hm⟩ := admit_aligned m t hge
      have hlast : (update t s).lastFrameTime
          = FRAME_DURATION * ⌊t / FRAME_DURATION⌋ := by
        rw [update_admitted h]
        simp only [hs]
        exact heq
      obtain ⟨ih1, ih2⟩ := ih (update t s) ⌊t / FRAME_DURATION⌋ hlast
      rw [admittedTimes_cons_admitted h]
      refine ⟨?_, List.Pairwise.cons (fun x hx => ih1 x hx) ih2⟩
      intro x hx
      rcases List.mem_cons.1 hx with rfl | hx
      · exact hm
      · exact lt_trans hm (ih1 x hx)

/-- Concrete run: callbacks at t = 0, 10, 20, 30, 40 ms from the initial
state admit exactly the frame at t = 40. -/
lemma admittedTimes_seq40 :
    admittedTimes [0, 10, 20, 30, 40] initUpdState = [40] := by
  have hF : FRAME_DURATION = 1000 / 30 := by
    norm_num [FRAME_DURATION, TARGET_FPS]
  have h0 : (0 : ℚ) - initUpdState.lastFrameTime < FRAME_DURATION := by
    norm_num [initUpdState, hF]
  rw [admittedTimes_cons_skip h0, update_skip h0]
  have h1 : (10 : ℚ) - ({ initUpdState with rafCount := initUpdState.rafCount + 1 } : UpdState).lastFrameTime < FRAME_DURATION := by
    norm_num [initUpdState, hF]
  rw [admittedTimes_cons_skip h1, update_skip h1]
  have h2 : (20 : ℚ) - ({ initUpdState with rafCount := initUpdState.rafCount + 1 + 1 } : UpdState).lastFrameTime < FRAME_DURATION := by
    norm_num [initUpdState, hF]
  rw [admittedTimes_cons_skip h2, update_skip h2]
  have h3 : (30 : ℚ) - ({ initUpdState with rafCount := initUpdState.rafCount + 1 + 1 + 1 } : UpdState).lastFrameTime < FRAME_DURATION := by
    norm_num [initUpdState, hF]
  rw [admittedTimes_cons_skip h3, update_skip h3]
  have h4 : ¬((40 : ℚ) - ({ initUpdState with rafCount := initUpdState.rafCount + 1 + 1 + 1 + 1 } : UpdState).lastFrameTime < FRAME_DURATION) := by
    norm_num [initUpdState, hF]
  rw [admittedTimes_cons_admitted h4, admittedTimes_nil]

/-- Concrete run: callbacks at t = 66 and t = 67 ms from the initial state
are both admitted, although they are less than one frame interval apart. -/
lemma admittedTimes_seq66 :
    admittedTimes [66, 67] initUpdState = [66, 67] := by
  have hF : FRAME_DURATION = 100 / 3 := by
    norm_num [FRAME_DURATION, TARGET_FPS]
  have h66 : ¬((66 : ℚ) - initUpdState.lastFrameTime < FRAME_DURATION) := by
    norm_num [initUpdState, hF]
  have hmod : jsMod ((66 : ℚ) - initUpdState.lastFrameTime) FRAME_DURATION
      = (66 - initUpdState.lastFrameTime) - FRAME_DURATION * ((1 : ℤ) : ℚ) := by
    refine jsMod_eval FRAME_DURATION_pos (by norm_num) ?_ ?_
    · norm_num [initUpdState, hF]
    · norm_num [initUpdState, hF]
  have hstep : update 66 initUpdState
      = { lastFrameTime := 100 / 3
          mousePos := ⟨1/2, 1/2⟩
          targetMousePos := ⟨1/2, 1/2⟩
          uMouse := ⟨1/2, 1/2⟩
          uTime := 33 / 500
          draws := 1
          rafCount := 2 } := by
    rw [update_admitted h66, hmod]
    norm_num [initUpdState, initMousePos, initTargetMousePos, lerpStep, lerpFactor, hF]
  rw [admittedTimes_cons_admitted h66, hstep]
  have h67 : ¬((67 : ℚ) -
      ({ lastFrameTime := 100 / 3, mousePos := ⟨1/2, 1/2⟩,
         targetMousePos := ⟨1/2, 1/2⟩, uMouse := ⟨1/2, 1/2⟩,
         uTime := 33 / 500, draws := 1, rafCount := 2 } : UpdState).lastFrameTime
        < FRAME_DURATION) := by
    norm_num [hF]
  rw [admittedTimes_cons_admitted h67, admittedTimes_nil]

/-! ### Claim theorems: animation scheduler -/

/-- C1: a callback at timestamp `t` with `t - lastAdmittedTime <
FRAME_DURATION` only reschedules (no draw, no other state change); an
admitted callback carries the phase into `lastAdmittedTime`, applies the
pointer smoothing step, sets `uniform.time = t / 1000` and issues exactly
one draw call. -/
theorem frame_admission (t : ℚ) (s : UpdState) :
    (t - s.lastFrameTime < FRAME_DURATION →
      (update t s).rafCount = s.rafCount + 1 ∧
      (update t s).lastFrameTime = s.lastFrameTime ∧
      (update t s).mousePos = s.mousePos ∧
      (update t s).targetMousePos = s.targetMousePos ∧
      (update t s).uMouse = s.uMouse ∧
      (update t s).uTime = s.uTime ∧
      (update t s).draws = s.draws) ∧
    (FRAME_DURATION ≤ t - s.lastFrameTime →
      (update t s).lastFrameTime = t - jsMod (t - s.lastFrameTime) FRAME_DURATION ∧
      (update t s).mousePos = ⟨lerpStep s.mousePos.x s.targetMousePos.x,
                               lerpStep s.mousePos.y s.targetMousePos.y⟩ ∧
      (update t s).uMouse = (update t s).mousePos ∧
      (update t s).uTime = t / 1000 ∧
      (update t s).draws = s.draws + 1 ∧
      (update t s).rafCount = s.rafCount + 1) := by
  constructor
  · intro h
    rw [update_skip h]
    simp
  · intro h
    rw [update_admitted (not_lt.2 h)]
    refine ⟨rfl, rfl, rfl, by ring, rfl, rfl⟩

/-- Witness for C1: the admitted frame at t = 1000 ms yields
`uniform.time = 1.0` and one issued draw call. -/
theorem frame_admission_witness :
    FRAME_DURATION ≤ (1000 : ℚ) - initUpdState.lastFrameTime ∧
    (update 1000 initUpdState).uTime = 1 ∧
    (update 1000 initUpdState).draws = 1 := by
  have hle : FRAME_DURATION ≤ (1000 : ℚ) - initUpdState.lastFrameTime := by
    norm_num [initUpdState, FRAME_DURATION, TARGET_FPS]
  have h := (frame_admission 1000 initUpdState).2 hle
  refine ⟨hle, ?_, ?_⟩
  · rw [h.2.2.2.1]; norm_num
  · rw [h.2.2.2.2.1]; rfl

/-- C2 (counterexample): the claim as stated is false on the code.  For the
callback sequence t = 0, 10, 20, 30, 40 from the initial state, the number
of admitted frames in [0, 40) is 0, not 1 (the first callback at t = 0 is
itself skipped because `lastFrameTime` starts at 0); and the sliding-window
reading of "at most one frame per frameIntervalMs window" fails as well:
t = 66 and t = 67 are both admitted, only 1 ms < FRAME_DURATION apart. -/
theorem frame_window_cex :
    ¬((admittedTimes [0, 10, 20, 30, 40] initUpdState).countP
        (fun t => decide (t < 40)) = 1) ∧
    admittedTimes [66, 67] initUpdState = [66, 67] ∧
    (67 : ℚ) - 66 < FRAME_DURATION := by
  refine ⟨?_, admittedTimes_seq66, by norm_num [FRAME_DURATION, TARGET_FPS]⟩
  rw [admittedTimes_seq40]
  norm_num [List.countP_cons]

/-- C2 (amended): admitted frames occupy pairwise strictly increasing
aligned frame-grid windows `[k·FRAME_DURATION, (k+1)·FRAME_DURATION)` — so
at most one frame is admitted per aligned window; and for the callback
sequence t = 0, 10, 20, 30, 40 from the initial state, no frame is admitted
in [0, 40): the single admitted frame is the one at t = 40. -/
theorem frame_window_admission :
    (∀ ts : List ℚ,
      (admittedTimes ts initUpdState).Pairwise
        (fun a b => ⌊a / FRAME_DURATION⌋ < ⌊b / FRAME_DURATION⌋)) ∧
    admittedTimes [0, 10, 20, 30, 40] initUpdState = [40] := by
  refine ⟨fun ts => ?_, admittedTimes_seq40⟩
  exact (admittedTimes_windows ts initUpdState 0 (by simp [initUpdState])).2

/-- C3: the smoothing step run on each admitted frame is
`current += (target - current) * 0.1` per axis; with a constant target the
distance to the target contracts by the exact factor 9/10 per admitted
frame, the current value never crosses to the other side of the target, and
from any starting distance ≤ 1 it is within ε = 1/1000 of the target after
66 admitted frames. -/
theorem smoothing_convergence (t : ℚ) (s : UpdState) (c T : ℚ) :
    (FRAME_DURATION ≤ t - s.lastFrameTime →
      (update t s).mousePos.x = lerpStep s.mousePos.x s.targetMousePos.x ∧
      (update t s).mousePos.y = lerpStep s.mousePos.y s.targetMousePos.y) ∧
    lerpStep c T = c + (T - c) * (1 / 10) ∧
    |lerpStep c T - T| = (9 / 10) * |c - T| ∧
    (c ≤ T → c ≤ lerpStep c T ∧ lerpStep c T ≤ T) ∧
    (T ≤ c → T ≤ lerpStep c T ∧ lerpStep c T ≤ c) ∧
    (|c - T| ≤ 1 → |lerpIter T 66 c - T| < 1 / 1000) := by
  refine ⟨?_, ?_, ?_, ?_, ?_, ?_⟩
  · intro h
    rw [update_admitted (not_lt.2 h)]
    exact ⟨rfl, rfl⟩
  · rw [lerpStep, lerpFactor]
  · rw [show lerpStep c T - T = (9 / 10) * (c - T) from lerpStep_sub c T, abs_mul,
      abs_of_pos (by norm_num : (0:ℚ) < 9 / 10)]
  · intro h
    constructor <;> · rw [lerpStep, lerpFactor]; linarith
  · intro h
    constructor <;> · rw [lerpStep, lerpFactor]; linarith
  · intro h
    rw [lerpIter_abs]
    calc (9 / 10 : ℚ) ^ 66 * |c - T| ≤ (9 / 10 : ℚ) ^ 66 * 1 := by
          exact mul_le_mul_of_nonneg_left h (by positivity)
      _ < 1 / 1000 := by norm_num

/-- Witness for C3: starting at distance 1 (current 0, target 1), after 66
admitted frames the current value is within 1/1000 of the target. -/
theorem smoothing_convergence_witness :
    FRAME_DURATION ≤ (1000 : ℚ) - initUpdState.lastFrameTime ∧
    |(0 : ℚ) - 1| ≤ 1 ∧ (0 : ℚ) ≤ 1 ∧
    |lerpIter 1 66 0 - 1| < 1 / 1000 ∧
    (0 : ℚ) ≤ lerpStep 0 1 ∧ lerpStep 0 1 ≤ 1 := by
  have h := smoothing_convergence 1000 initUpdState 0 1
  refine ⟨by norm_num [initUpdState, FRAME_DURATION, TARGET_FPS], by norm_num, by norm_num,
    h.2.2.2.2.2 (by norm_num), h.2.2.2.1 (by norm_num)⟩

/-! ### Claim theorems: teardown -/

/-- C4 (counterexample): teardown does not perform its releases in the
reverse of the acquisition order.  With pointer reactivity enabled the
resources are acquired as GL context, resize listener, animation frame,
canvas, mouse listener, but the cleanup releases the animation frame,
debounce timer and resize listener before the mouse listener and canvas. -/
theorem teardown_order_cex :
    ¬((cleanup true (setupState true)).map Prod.snd
        = some (setupTrace true).reverse) := by decide

/-- C4 (amended): teardown cancels the pending animation callback, clears
the debounce timer, removes the resize and pointer listeners, detaches the
canvas and releases the GL context; it never raises, is idempotent (a
second invocation changes nothing and also raises no error), leaves zero
active listeners/timers, and is safe from any host state, including states
where a sub-resource was never acquired; but its release order is
animation frame, debounce timer, resize listener, mouse listener, canvas,
GL context — the context is released last, yet the order is not the exact
reverse of the acquisition order. -/
theorem teardown_safe :
    (∀ (mr : Bool) (s : HostState),
      (cleanup mr s).isSome = true ∧
      (cleanup mr s).map (fun p => (p.1.rafPending, p.1.resizeTimerPending,
          p.1.resizeListenerOn, p.1.canvasAttached, p.1.contextLost))
        = some (false, false, false, false, true) ∧
      ((cleanup mr s).bind (fun p => (cleanup mr p.1).map Prod.fst))
        = (cleanup mr s).map Prod.fst) ∧
    (∀ s : HostState,
      (cleanup true s).map (fun p => p.1.mouseListenerOn) = some false) ∧
    (cleanup true (setupState true)).map Prod.snd =
      some [Resource.animFrame, Resource.resizeTimer, Resource.resizeListener,
        Resource.mouseListener, Resource.canvasNode, Resource.glContext] := by
  refine ⟨?_, ?_, by decide⟩ <;> decide

/-! ### Claim theorems: pointer state invariant -/

lemma runUpdates_cons (t : ℚ) (rest : List ℚ) (s : UpdState) :
    runUpdates (t :: rest) s = runUpdates rest (update t s) := rfl

/-- Any run of animation callbacks preserves a centred pointer state. -/
lemma runUpdates_center :
    ∀ (ts : List ℚ) (s : UpdState),
      s.mousePos = ⟨1/2, 1/2⟩ → s.targetMousePos = ⟨1/2, 1/2⟩ →
      s.uMouse = ⟨1/2, 1/2⟩ →
      (runUpdates ts s).mousePos = ⟨1/2, 1/2⟩ ∧
        (runUpdates ts s).targetMousePos = ⟨1/2, 1/2⟩ ∧
        (runUpdates ts s).uMouse = ⟨1/2, 1/2⟩ := by
  intro ts
  induction ts with
  | nil => intro s h1 h2 h3; exact ⟨h1, h2, h3⟩
  | cons t rest ih =>
    intro s h1 h2 h3
    rw [runUpdates_cons]
    by_cases h : t - s.lastFrameTime < FRAME_DURATION
    · refine ih _ ?_ ?_ ?_ <;> · rw [update_skip h]; simp [h1, h2, h3]
    · refine ih _ ?_ ?_ ?_
      · rw [update_admitted h, ]
        simp [h1, h2, lerpStep_self]
      · rw [update_admitted h]
        simpa using h2
      · rw [update_admitted h]
        simp [h1, h2, lerpStep_self]

/-- C9: both the smoothed pointer and its target start at the centre
(0.5, 0.5); with `mouseReact = false` no pointer listener is registered at
setup, and over any sequence of animation callbacks the target never
changes and the `uMouse` uniform stays exactly (0.5, 0.5). -/
theorem center_pointer_invariant :
    initMousePos = ⟨1/2, 1/2⟩ ∧ initTargetMousePos = ⟨1/2, 1/2⟩ ∧
    (setupState false).mouseListenerOn = false ∧
    Resource.mouseListener ∉ setupTrace false ∧
    ∀ ts : List ℚ,
      (runUpdates ts initUpdState).targetMousePos = ⟨1/2, 1/2⟩ ∧
      (runUpdates ts initUpdState).mousePos = ⟨1/2, 1/2⟩ ∧
      (runUpdates ts initUpdState).uMouse = ⟨1/2, 1/2⟩ := by
  refine ⟨rfl, rfl, rfl, by decide, fun ts => ?_⟩
  obtain ⟨h1, h2, h3⟩ := runUpdates_center ts initUpdState rfl rfl rfl
  exact ⟨h2, h1, h3⟩

/-! ### Claim theorems: resize -/

/-- C5: an applied resize with the program present writes
`uResolution = (container.width * 0.5, container.height * 0.5,
width / height)`, whose aspect component equals `width / height` of the
container for all positive dimensions; and a mount on an 800×600 container
produces `uResolution = (400, 300, 4/3)`. -/
theorem resize_resolution (ctn : Box) (s : RState) (u : Uniforms) :
    (s.program = some u → 0 < ctn.offsetWidth → 0 < ctn.offsetHeight →
      ∃ u2, (resize ctn s).program = some u2 ∧
        u2.uResolution = (ctn.offsetWidth * (1/2), ctn.offsetHeight * (1/2),
          ctn.offsetWidth / ctn.offsetHeight)) ∧
    (∀ (c0 : Canvas) (color : ℚ × ℚ × ℚ) (amp sp : ℚ),
      ∃ u3, (mount ⟨800, 600⟩ c0 color amp sp).program = some u3 ∧
        u3.uResolution = (400, 300, 4/3)) := by
  constructor
  · intro hp hw hh
    refine ⟨{ u with uResolution := (ctn.offsetWidth * (1/2), ctn.offsetHeight * (1/2),
        (ctn.offsetWidth * (1/2)) / (ctn.offsetHeight * (1/2))) }, ?_, ?_⟩
    · simp [resize, hp, setSize, RENDER_SCALE]
    · show (ctn.offsetWidth * (1/2), ctn.offsetHeight * (1/2),
          (ctn.offsetWidth * (1/2)) / (ctn.offsetHeight * (1/2)))
        = (ctn.offsetWidth * (1/2), ctn.offsetHeight * (1/2),
          ctn.offsetWidth / ctn.offsetHeight)
      rw [mul_div_mul_right _ _ (by norm_num : (1/2 : ℚ) ≠ 0)]
  · intro c0 color amp sp
    refine ⟨mkUniforms (resize ⟨800, 600⟩ ⟨c0, none⟩).canvas color amp sp, rfl, ?_⟩
    simp only [resize, setSize, mkUniforms, RENDER_SCALE]
    norm_num

/-- Witness for C5: a concrete resize of an 800×600 container with the
program present yields `uResolution = (400, 300, 4/3)`. -/
theorem resize_resolution_witness :
    (⟨⟨300, 150, false⟩, some (mkUniforms ⟨300, 150, false⟩ (1, 1, 1) (1/10) 1)⟩ : RState).program
      = some (mkUniforms ⟨300, 150, false⟩ (1, 1, 1) (1/10) 1) ∧
    (0 : ℚ) < 800 ∧ (0 : ℚ) < 600 ∧
    ∃ u2, (resize ⟨800, 600⟩
        ⟨⟨300, 150, false⟩, some (mkUniforms ⟨300, 150, false⟩ (1, 1, 1) (1/10) 1)⟩).program
      = some u2 ∧ u2.uResolution = (400, 300, 4/3) := by
  obtain ⟨u2, hu, hres⟩ :=
    (resize_resolution ⟨800, 600⟩
      ⟨⟨300, 150, false⟩, some (mkUniforms ⟨300, 150, false⟩ (1, 1, 1) (1/10) 1)⟩
      (mkUniforms ⟨300, 150, false⟩ (1, 1, 1) (1/10) 1)).1
      rfl (by norm_num) (by norm_num)
  exact ⟨rfl, by norm_num, by norm_num, u2, hu, by rw [hres]; norm_num⟩

/-- C8: resize recomputation is idempotent — for a fixed container box,
applying the resize computation twice yields exactly the state (and hence
the resolution/aspect values) of applying it once. -/
theorem resize_idempotent (ctn : Box) (s : RState) :
    resize ctn (resize ctn s) = resize ctn s := by
  cases hp : s.program <;> simp [resize, setSize, hp]

/-- C10: the initial synchronous resize runs while `program` is unset, so
it only sizes the drawable surface and writes no uniform; `uResolution` is
first populated from the canvas dimensions at program construction, and a
resize with the program present (a subsequent debounced resize) is what
updates it thereafter. -/
theorem initial_resize_guard (ctn : Box) (c0 : Canvas) (color : ℚ × ℚ × ℚ)
    (amp sp : ℚ) (s : RState) (u : Uniforms) :
    (resize ctn ⟨c0, none⟩).program = none ∧
    (resize ctn ⟨c0, none⟩).canvas.width = ctn.offsetWidth * RENDER_SCALE ∧
    (resize ctn ⟨c0, none⟩).canvas.height = ctn.offsetHeight * RENDER_SCALE ∧
    (mount ctn c0 color amp sp).program =
      some (mkUniforms (resize ctn ⟨c0, none⟩).canvas color amp sp) ∧
    (mkUniforms (resize ctn ⟨c0, none⟩).canvas color amp sp).uResolution =
      ((resize ctn ⟨c0, none⟩).canvas.width,
       (resize ctn ⟨c0, none⟩).canvas.height,
       (resize ctn ⟨c0, none⟩).canvas.width / (resize ctn ⟨c0, none⟩).canvas.height) ∧
    (s.program = some u →
      (resize ctn s).program = some { u with uResolution :=
        (ctn.offsetWidth * RENDER_SCALE, ctn.offsetHeight * RENDER_SCALE,
         (ctn.offsetWidth * RENDER_SCALE) / (ctn.offsetHeight * RENDER_SCALE)) }) := by
  refine ⟨rfl, rfl, rfl, rfl, rfl, fun hp => ?_⟩
  simp [resize, setSize, hp]

/-- Witness for C10: a subsequent resize with a concrete program updates
its `uResolution` from the new container box. -/
theorem initial_resize_guard_witness :
    (⟨⟨400, 300, true⟩, some (mkUniforms ⟨400, 300, true⟩ (1, 1, 1) (1/10) 1)⟩ : RState).program
      = some (mkUniforms ⟨400, 300, true⟩ (1, 1, 1) (1/10) 1) ∧
    (resize ⟨1024, 768⟩
        ⟨⟨400, 300, true⟩, some (mkUniforms ⟨400, 300, true⟩ (1, 1, 1) (1/10) 1)⟩).program
      = some { mkUniforms ⟨400, 300, true⟩ (1, 1, 1) (1/10) 1 with uResolution :=
          ((1024 : ℚ) * RENDER_SCALE, (768 : ℚ) * RENDER_SCALE,
           ((1024 : ℚ) * RENDER_SCALE) / ((768 : ℚ) * RENDER_SCALE)) } :=
  ⟨rfl,
    (initial_resize_guard ⟨1024, 768⟩ ⟨400, 300, true⟩ (1, 1, 1) (1/10) 1
      ⟨⟨400, 300, true⟩, some (mkUniforms ⟨400, 300, true⟩ (1, 1, 1) (1/10) 1)⟩
      (mkUniforms ⟨400, 300, true⟩ (1, 1, 1) (1/10) 1)).2.2.2.2.2 rfl⟩

/-! ### Claim theorems: mouse throttle and normalisation -/

/-- C6: the pointer-move throttle drops every event arriving less than
50 ms after the last accepted one (state unchanged, no queueing) and
accepts an event otherwise, overwriting the target (latest wins); in the
concrete scenario, once a first event is accepted at `t0`, a second event
10 ms later changes nothing and a third event 60 ms after the first updates
the target again. -/
theorem mouse_throttle (rect : Rect) (t0 : ℚ) (e1 e2 e3 : PointerEvent) (s : MouseState) :
    (∀ (now : ℚ) (e : PointerEvent) (s' : MouseState),
      now - s'.lastMouseUpdate < MOUSE_THROTTLE →
        handleMouseMove now rect e s' = s') ∧
    (∀ (now : ℚ) (e : PointerEvent) (s' : MouseState),
      MOUSE_THROTTLE ≤ now - s'.lastMouseUpdate →
        (handleMouseMove now rect e s').targetMousePos = normCoords rect e ∧
        (handleMouseMove now rect e s').lastMouseUpdate = now) ∧
    (MOUSE_THROTTLE ≤ t0 - s.lastMouseUpdate →
      (handleMouseMove t0 rect e1 s).targetMousePos = normCoords rect e1 ∧
      handleMouseMove (t0 + 10) rect e2 (handleMouseMove t0 rect e1 s)
        = handleMouseMove t0 rect e1 s ∧
      (handleMouseMove (t0 + 60) rect e3
          (handleMouseMove (t0 + 10) rect e2
            (handleMouseMove t0 rect e1 s))).targetMousePos
        = normCoords rect e3) := by
  refine ⟨?_, ?_, ?_⟩
  · intro now e s' h
    rw [handleMouseMove, if_pos h]
  · intro now e s' h
    rw [handleMouseMove, if_neg (not_lt.2 h)]
    exact ⟨rfl, rfl⟩
  · intro h
    have hs1 : handleMouseMove t0 rect e1 s = ⟨t0, normCoords rect e1⟩ := by
      rw [handleMouseMove, if_neg (not_lt.2 h)]
    have hdrop : (t0 + 10 : ℚ) -
        (⟨t0, normCoords rect e1⟩ : MouseState).lastMouseUpdate < MOUSE_THROTTLE := by
      norm_num [MOUSE_THROTTLE]
    have hs2 : handleMouseMove (t0 + 10) rect e2 (handleMouseMove t0 rect e1 s)
        = handleMouseMove t0 rect e1 s := by
      rw [hs1, handleMouseMove, if_pos hdrop]
    have hacc : ¬((t0 + 60 : ℚ) -
        (⟨t0, normCoords rect e1⟩ : MouseState).lastMouseUpdate < MOUSE_THROTTLE) := by
      norm_num [MOUSE_THROTTLE]
    refine ⟨by rw [hs1], hs2, ?_⟩
    rw [hs2, hs1, handleMouseMove, if_neg hacc]

/-- Witness for C6: the three-event scenario at t = 100, 110, 160 ms from
the initial throttle state. -/
theorem mouse_throttle_witness :
    MOUSE_THROTTLE ≤ (100 : ℚ) -
      (⟨0, initTargetMousePos⟩ : MouseState).lastMouseUpdate ∧
    (handleMouseMove 100 ⟨0, 0, 200, 100⟩ ⟨50, 25⟩
        ⟨0, initTargetMousePos⟩).targetMousePos
      = normCoords ⟨0, 0, 200, 100⟩ ⟨50, 25⟩ ∧
    handleMouseMove (100 + 10) ⟨0, 0, 200, 100⟩ ⟨60, 30⟩
        (handleMouseMove 100 ⟨0, 0, 200, 100⟩ ⟨50, 25⟩ ⟨0, initTargetMousePos⟩)
      = handleMouseMove 100 ⟨0, 0, 200, 100⟩ ⟨50, 25⟩ ⟨0, initTargetMousePos⟩ ∧
    (handleMouseMove (100 + 60) ⟨0, 0, 200, 100⟩ ⟨150, 80⟩
        (handleMouseMove (100 + 10) ⟨0, 0, 200, 100⟩ ⟨60, 30⟩
          (handleMouseMove 100 ⟨0, 0, 200, 100⟩ ⟨50, 25⟩
            ⟨0, initTargetMousePos⟩))).targetMousePos
      = normCoords ⟨0, 0, 200, 100⟩ ⟨150, 80⟩ := by
  have hle : MOUSE_THROTTLE ≤ (100 : ℚ) -
      (⟨0, initTargetMousePos⟩ : MouseState).lastMouseUpdate := by
    norm_num [MOUSE_THROTTLE]
  obtain ⟨h1, h2, h3⟩ :=
    (mouse_throttle ⟨0, 0, 200, 100⟩ 100 ⟨50, 25⟩ ⟨60, 30⟩ ⟨150, 80⟩
      ⟨0, initTargetMousePos⟩).2.2 hle
  exact ⟨hle, h1, h2, h3⟩

/-- C7: every accepted pointer event stores
`(clientX - rect.left) / rect.width` and the Y-flipped
`1 - (clientY - rect.top) / rect.height` as the new target; an event at
container-relative position (a, b) yields target (a, 1 - b), so (0.25,
0.75) yields (0.25, 0.25). -/
theorem pointer_normalisation (now : ℚ) (rect : Rect) (e : PointerEvent)
    (s : MouseState) (a b : ℚ) :
    (MOUSE_THROTTLE ≤ now - s.lastMouseUpdate →
      (handleMouseMove now rect e s).targetMousePos =
        ⟨(e.clientX - rect.left) / rect.width,
         1 - (e.clientY - rect.top) / rect.height⟩) ∧
    (MOUSE_THROTTLE ≤ now - s.lastMouseUpdate →
      0 < rect.width → 0 < rect.height →
      e.clientX = rect.left + a * rect.width →
      e.clientY = rect.top + b * rect.height →
      (handleMouseMove now rect e s).targetMousePos = ⟨a, 1 - b⟩) := by
  have hacc : MOUSE_THROTTLE ≤ now - s.lastMouseUpdate →
      (handleMouseMove now rect e s).targetMousePos =
        ⟨(e.clientX - rect.left) / rect.width,
         1 - (e.clientY - rect.top) / rect.height⟩ := by
    intro h
    rw [handleMouseMove, if_neg (not_lt.2 h)]
    rfl
  refine ⟨hacc, fun h hw hh hx hy => ?_⟩
  rw [hacc h, hx, hy, add_sub_cancel_left, add_sub_cancel_left,
    mul_div_cancel_right₀ _ hw.ne', mul_div_cancel_right₀ _ hh.ne']

/-- Witness for C7: an accepted event at container-relative (0.25, 0.75)
sets the target to (0.25, 0.25). -/
theorem pointer_normalisation_witness :
    MOUSE_THROTTLE ≤ (100 : ℚ) -
      (⟨0, initTargetMousePos⟩ : MouseState).lastMouseUpdate ∧
    (0 : ℚ) < 200 ∧ (0 : ℚ) < 100 ∧
    (60 : ℚ) = 10 + (1/4) * 200 ∧ (95 : ℚ) = 20 + (3/4) * 100 ∧
    (handleMouseMove 100 ⟨10, 20, 200, 100⟩ ⟨60, 95⟩
        ⟨0, initTargetMousePos⟩).targetMousePos = ⟨1/4, 1/4⟩ := by
  have h := (pointer_normalisation 100 ⟨10, 20, 200, 100⟩ ⟨60, 95⟩
    ⟨0, initTargetMousePos⟩ (1/4) (3/4)).2
    (by norm_num [MOUSE_THROTTLE]) (by norm_num) (by norm_num)
    (by norm_num) (by norm_num)
  refine ⟨by norm_num [MOUSE_THROTTLE], by norm_num, by norm_num,
    by norm_num, by norm_num, ?_⟩
  rw [h]
  norm_num

end Iridescence
